import Mathlib

/-!
Verification of the Nephos task-lifecycle engine, shallowly embedded from
`src/nephos/nephos.py` and `src/nephos/uploader/uploader.py`.

The Task Store is modelled as a list of rows, the filesystem as a list of
folder paths, and each effectful function returns an explicit result record
carrying the new store, the new filesystem, the SQL commands it executed,
the worker-pool calls it emitted, and the log entries it wrote. External
failure points (database connection, `shutil.rmtree`) are passed in as
explicit booleans.
-/

set_option autoImplicit false

namespace Nephos

/-- A row of the `tasks` table.  The column layout (`TSK_STORE_INDEX`,
`TSK_SHR_INDEX`) lives in `manage_db.py`, which is not part of the sources;
the fields follow the spec's Task data model: `store_path` (primary key),
`share_list`, `status` (the SQL strings use statuses `"processed"` and
`"uploading"`). -/
structure Task where
  store_path : String
  share_list : String
  status : String
  deriving Repr, DecidableEq

/-- The module-level SQL string `CMD_GET_FOLDERS` of `uploader.py`. -/
def CMD_GET_FOLDERS : String :=
  "SELECT * FROM tasks WHERE status = \"processed\""

/-- The module-level SQL string `CMD_SET_UPLOADING` of `uploader.py`. -/
def CMD_SET_UPLOADING : String :=
  "UPDATE tasks SET status = \"uploading\" WHERE store_path = ?"

/-- The module-level SQL string `CMD_RM_TASK` of `uploader.py`. -/
def CMD_RM_TASK : String :=
  "DELETE FROM tasks WHERE store_path = ?"

/-- SQLite semantics of `CMD_GET_FOLDERS`: the rows whose `status` column
equals `"processed"`, in table order. -/
def runGetFolders (db : List Task) : List Task :=
  db.filter (fun t => t.status = "processed")

/-- SQLite semantics of `CMD_RM_TASK` with parameter `folder`: delete every
row whose `store_path` equals `folder`. -/
def runRmTask (db : List Task) (folder : String) : List Task :=
  db.filter (fun t => t.store_path ≠ folder)

/-- SQLite semantics of `CMD_SET_UPLOADING` with parameter `path`. -/
def runSetUploading (db : List Task) (path : String) : List Task :=
  db.map (fun t => if t.store_path = path then { t with status := "uploading" } else t)

/-- `shutil.rmtree folder`: recursively delete the folder — the path itself
and every path below it disappear from the filesystem. -/
def rmtree (fs : List String) (folder : String) : List String :=
  fs.filter (fun p => ¬ (p = folder ∨ (folder ++ "/").isPrefixOf p))

/-- One database command executed through a `DBHandler` cursor, by name of
the module-level SQL string it runs. -/
inductive DbCmd where
  | getFolders : DbCmd
  | setUploading (store_path : String) : DbCmd
  | rmTask (store_path : String) : DbCmd
  deriving Repr, DecidableEq

/-- A Python thread pool; only its worker count is observable here.  The
module-level `POOL = pool.ThreadPool(cpu_count())`. -/
structure ThreadPool where
  size : Nat
  deriving Repr, DecidableEq

/-- Module-load state of `uploader.py`: line 21 constructs exactly one
`ThreadPool`, sized to `cpu_count()`, shared by everything in the module. -/
structure UploaderModule where
  poolsCreated : Nat
  pool : ThreadPool
  deriving Repr, DecidableEq

/-- Loading module `uploader.py` with `cpu_count() = ncpu`. -/
def uploaderModuleLoad (ncpu : Nat) : UploaderModule :=
  { poolsCreated := 1, pool := { size := ncpu } }

/-- One call emitted by `POOL.starmap(partial(up_func, client=client),
upload_pool)`: `up_func` receives the pair's two components as positional
arguments and `client` as a keyword argument. -/
structure StarmapCall (Client : Type) where
  pos1 : String
  pos2 : String
  kwClient : Client
  deriving Repr, DecidableEq

/-- Everything observable about one run of `Uploader.begin_uploads`:
the task store and filesystem afterwards, the SQL commands executed, the
pool submitted to together with the calls emitted (and how many pools the
run constructed itself), and the number of warnings logged.  The function
always returns to its caller in this phase (`DBException` is the only
exception the `try` block can raise and it is caught), so the result is a
plain record, not an `Except`. -/
structure CycleResult (Client : Type) where
  db : List Task
  fs : List String
  cmds : List DbCmd
  submittedTo : Option ThreadPool
  calls : List (StarmapCall Client)
  poolsCreated : Nat
  warnings : Nat
  deriving Repr, DecidableEq

/-- `Uploader.begin_uploads(client, up_func)` of `uploader.py`, lines 53–83.
`M` is the loaded module (supplying the global `POOL`); `connOk` is whether
`DBHandler.connect()` succeeds (`DBHandler` is outside the sources;
modelled from the spec: a failing connection raises `DBException`).
On failure the function logs a warning and returns; otherwise it executes
`CMD_GET_FOLDERS`, builds `upload_pool` from the store-path and share-list
columns of each row, and, if `upload_pool` is non-empty, submits it to the
module pool via `starmap`. -/
def Uploader.begin_uploads {Client : Type} (M : UploaderModule) (client : Client)
    (connOk : Bool) (db : List Task) (fs : List String) : CycleResult Client :=
  if connOk then
    let tasks_list := runGetFolders db
    let upload_pool := tasks_list.map (fun t => (t.store_path, t.share_list))
    { db := db
      fs := fs
      cmds := [DbCmd.getFolders]
      submittedTo := if upload_pool.isEmpty then none else some M.pool
      calls := if upload_pool.isEmpty then [] else
        upload_pool.map (fun p => { pos1 := p.1, pos2 := p.2, kwClient := client })
      poolsCreated := 0
      warnings := 0 }
  else
    { db := db, fs := fs, cmds := [], submittedTo := none, calls := []
      poolsCreated := 0, warnings := 1 }

/-- The two filesystem/store mutations of `Uploader._remove`, in the order
they were performed. -/
inductive RmEvent where
  | dbRm (folder : String) : RmEvent
  | fsRm (folder : String) : RmEvent
  deriving Repr, DecidableEq

/-- An exception escaping `Uploader._remove`. -/
inductive PyError where
  | dbException : PyError
  | osError : PyError
  deriving Repr, DecidableEq

/-- Observable outcome of one call to `Uploader._remove`: the task store and
filesystem afterwards, the mutations performed in order, and the exception
that escaped, if any (`_remove` has no `try`, so any error propagates). -/
structure RemoveResult where
  db : List Task
  fs : List String
  events : List RmEvent
  error : Option PyError
  deriving Repr, DecidableEq

/-- `Uploader._remove(folder)` of `uploader.py`, lines 109–127: inside a
`with DBHandler.connect()` block it executes `CMD_RM_TASK` with parameter
`folder`, then (outside the block) calls `shutil.rmtree(folder)`.
`dbOk` is whether acquiring the connection and executing the deletion
succeed (`DBHandler` is outside the sources; modelled from the spec: a
failing store raises, and the scoped connection is released on every exit
path); `fsOk` is whether `rmtree` succeeds. -/
def Uploader._remove (dbOk fsOk : Bool) (db : List Task) (fs : List String)
    (folder : String) : RemoveResult :=
  if dbOk then
    let db' := runRmTask db folder
    if fsOk then
      { db := db', fs := rmtree fs folder
        events := [RmEvent.dbRm folder, RmEvent.fsRm folder], error := none }
    else
      { db := db', fs := fs, events := [RmEvent.dbRm folder]
        error := some PyError.osError }
  else
    { db := db, fs := fs, events := [], error := some PyError.dbException }

/-- A startup action of module `nephos.py` or of `Nephos.__init__`. -/
inductive InitStep where
  | acquireLock : InitStep
  | logLockError : InitStep
  | configInit : InitStep
  | dbInit : InitStep
  | schedulerInit : InitStep
  deriving Repr, DecidableEq

/-- Outcome of loading module `nephos.py`: the exit status if `sys.exit`
ran, the startup steps performed, and whether the `Nephos` class became
usable. -/
structure ModuleLoadResult where
  exitCode : Option Int
  steps : List InitStep
  nephosUsable : Bool
  deriving Repr, DecidableEq

/-- Loading module `nephos.py`, lines 23–29: at module level, before the
`Nephos` class body is reached, `SingleInstance()` is attempted; on
`SingleInstanceException` the error is logged and `sys.exit(-1)` runs.
`lockOk` is whether the single-instance lock is acquired.  Configuration,
database and scheduler initialisation happen only later, inside
`Nephos.__init__`, which can run only once the module loaded. -/
def nephosModuleLoad (lockOk : Bool) : ModuleLoadResult :=
  if lockOk then
    { exitCode := none, steps := [InitStep.acquireLock], nephosUsable := true }
  else
    { exitCode := some (-1), steps := [InitStep.acquireLock, InitStep.logLockError]
      nephosUsable := false }

/-- A Python value passed to the upload function: either a string drawn
from a task row, or the authenticated client. -/
inductive PyVal (Client : Type) where
  | str (s : String) : PyVal Client
  | client (c : Client) : PyVal Client
  deriving Repr, DecidableEq

/-- Python positional-argument binding: assign positional values to the
parameters in declaration order; too many positionals is a `TypeError`. -/
def bindPositional {Client : Type} :
    List String → List (PyVal Client) → Except String (List (String × PyVal Client))
  | _, [] => Except.ok []
  | [], _ :: _ => Except.error "too many positional arguments"
  | p :: ps, v :: vs => (bindPositional ps vs).map (fun r => (p, v) :: r)

/-- Python keyword-argument binding on top of already-bound positionals:
a keyword naming an already-bound parameter is a `TypeError` (multiple
values), an unknown keyword is a `TypeError` (unexpected keyword). -/
def bindKeywords {Client : Type} (params : List String)
    (bound : List (String × PyVal Client)) :
    List (String × PyVal Client) → Except String (List (String × PyVal Client))
  | [] => Except.ok bound
  | (k, v) :: rest =>
    if bound.any (fun b => b.1 = k) then
      Except.error ("multiple values for argument " ++ k)
    else if params.contains k then
      bindKeywords params (bound ++ [(k, v)]) rest
    else
      Except.error ("unexpected keyword argument " ++ k)

/-- Python call semantics `f(*pos, **kw)` for a function whose parameter
names, in order, are `params`: the resulting parameter-to-value binding,
or a `TypeError`.  A parameter left unbound is a `TypeError` (missing
argument). -/
def pythonCall {Client : Type} (params : List String) (pos : List (PyVal Client))
    (kw : List (String × PyVal Client)) : Except String (List (String × PyVal Client)) := do
  let b ← bindPositional params pos
  let b ← bindKeywords params b kw
  if params.all (fun p => b.any (fun x => x.1 = p)) then
    Except.ok b
  else
    Except.error "missing required argument"

/-- The declared parameter list of `Uploader._upload` (lines 85–107):
`(client, folder, share_list)`. -/
def uploadParams : List String := ["client", "folder", "share_list"]

/-- The call one pool worker performs for task `t`:
`partial(up_func, client=client)(t[TSK_STORE_INDEX], t[TSK_SHR_INDEX])`,
i.e. `up_func(store_path, share_list, client=client)`, resolved against the
declared signature of `Uploader._upload`. -/
def workerCall {Client : Type} (client : Client) (t : Task) :
    Except String (List (String × PyVal Client)) :=
  pythonCall uploadParams [PyVal.str t.store_path, PyVal.str t.share_list]
    [("client", PyVal.client client)]

/-! ### Helper lemmas about `begin_uploads` -/

theorem begin_uploads_db_eq {Client : Type} (M : UploaderModule) (client : Client)
    (connOk : Bool) (db : List Task) (fs : List String) :
    (Uploader.begin_uploads M client connOk db fs).db = db := by
  cases connOk <;> simp [Uploader.begin_uploads]

theorem begin_uploads_fs_eq {Client : Type} (M : UploaderModule) (client : Client)
    (connOk : Bool) (db : List Task) (fs : List String) :
    (Uploader.begin_uploads M client connOk db fs).fs = fs := by
  cases connOk <;> simp [Uploader.begin_uploads]

theorem begin_uploads_calls_eq {Client : Type} (M : UploaderModule) (client : Client)
    (db : List Task) (fs : List String) :
    (Uploader.begin_uploads M client true db fs).calls =
      (runGetFolders db).map
        (fun t => { pos1 := t.store_path, pos2 := t.share_list, kwClient := client }) := by
  simp only [Uploader.begin_uploads, if_true]
  by_cases h : ((runGetFolders db).map (fun t => (t.store_path, t.share_list))).isEmpty
  · rw [List.isEmpty_iff, List.map_eq_nil_iff] at h
    simp [h]
  · simp only [h, if_false, Bool.false_eq_true]
    simp [List.map_map, Function.comp]

theorem begin_uploads_submittedTo_eq {Client : Type} (M : UploaderModule) (client : Client)
    (db : List Task) (fs : List String) :
    (Uploader.begin_uploads M client true db fs).submittedTo =
      if runGetFolders db = [] then none else some M.pool := by
  simp only [Uploader.begin_uploads, if_true]
  by_cases h : runGetFolders db = [] <;> simp [h]

theorem begin_uploads_cmds_eq {Client : Type} (M : UploaderModule) (client : Client)
    (db : List Task) (fs : List String) :
    (Uploader.begin_uploads M client true db fs).cmds = [DbCmd.getFolders] := by
  simp [Uploader.begin_uploads]

theorem begin_uploads_poolsCreated_eq {Client : Type} (M : UploaderModule) (client : Client)
    (connOk : Bool) (db : List Task) (fs : List String) :
    (Uploader.begin_uploads M client connOk db fs).poolsCreated = 0 := by
  cases connOk <;> simp [Uploader.begin_uploads]

theorem mem_runGetFolders {db : List Task} {t : Task} :
    t ∈ runGetFolders db ↔ t ∈ db ∧ t.status = "processed" := by
  simp [runGetFolders]

/-! ### Claim theorems -/

/-- Claim C2: if connecting to the Task Store fails at the start of a
dispatch cycle, `begin_uploads` logs one warning, leaves the task store and
the filesystem unchanged, executes no SQL command, submits nothing to the
worker pool, and returns to its caller (the result is an ordinary value:
the `DBException` is caught, never re-raised). -/
theorem C2_store_failure_skips_cycle {Client : Type} (M : UploaderModule) (client : Client)
    (db : List Task) (fs : List String) :
    (Uploader.begin_uploads M client false db fs).db = db ∧
    (Uploader.begin_uploads M client false db fs).fs = fs ∧
    (Uploader.begin_uploads M client false db fs).cmds = [] ∧
    (Uploader.begin_uploads M client false db fs).submittedTo = none ∧
    (Uploader.begin_uploads M client false db fs).calls = [] ∧
    (Uploader.begin_uploads M client false db fs).warnings = 1 := by
  simp [Uploader.begin_uploads]

/-- Claim C5: a dispatch cycle never changes any task's status: the task
store after `begin_uploads` equals the store before it, and the command
`CMD_SET_UPLOADING` is never among the commands the cycle executes. -/
theorem C5_no_status_flip {Client : Type} (M : UploaderModule) (client : Client)
    (connOk : Bool) (db : List Task) (fs : List String) :
    (Uploader.begin_uploads M client connOk db fs).db = db ∧
    (∀ p, DbCmd.setUploading p ∉ (Uploader.begin_uploads M client connOk db fs).cmds) := by
  refine ⟨begin_uploads_db_eq M client connOk db fs, ?_⟩
  intro p
  cases connOk <;> simp [Uploader.begin_uploads]

/-- Witness for C5 at a concrete store. -/
theorem C5_witness :
    (Uploader.begin_uploads (uploaderModuleLoad 1) () true
        [{ store_path := "/a", share_list := "x", status := "processed" }] []).db =
      [{ store_path := "/a", share_list := "x", status := "processed" }] :=
  (C5_no_status_flip (uploaderModuleLoad 1) () true
    [{ store_path := "/a", share_list := "x", status := "processed" }] []).1

/-- Claim C7: when acquiring the single-instance lock fails at module load,
the process logs the error and exits with the non-zero status `-1` before
configuration, database or scheduler initialisation, and before the
`Nephos` class becomes usable; lock acquisition is the first startup step
whether it succeeds or fails. -/
theorem C7_lock_failure_aborts_startup :
    (nephosModuleLoad false).exitCode = some (-1) ∧
    (-1 : Int) ≠ 0 ∧
    (nephosModuleLoad false).steps.head? = some InitStep.acquireLock ∧
    InitStep.logLockError ∈ (nephosModuleLoad false).steps ∧
    InitStep.configInit ∉ (nephosModuleLoad false).steps ∧
    InitStep.dbInit ∉ (nephosModuleLoad false).steps ∧
    InitStep.schedulerInit ∉ (nephosModuleLoad false).steps ∧
    (nephosModuleLoad false).nephosUsable = false ∧
    (nephosModuleLoad true).steps.head? = some InitStep.acquireLock := by
  decide

/-- Claim C3: with the connection up, the dispatched calls correspond
exactly to the rows whose status is `"processed"` (rows with status
`"uploading"`, or absent rows, are never dispatched), and any pool
submitted to is the module pool sized to `cpu_count`. -/
theorem C3_snapshot_exactly_processed (ncpu : Nat) {Client : Type} (client : Client)
    (db : List Task) (fs : List String) :
    (∀ t ∈ db, t.status = "processed" →
        ({ pos1 := t.store_path, pos2 := t.share_list, kwClient := client } : StarmapCall Client) ∈
          (Uploader.begin_uploads (uploaderModuleLoad ncpu) client true db fs).calls) ∧
    (∀ c ∈ (Uploader.begin_uploads (uploaderModuleLoad ncpu) client true db fs).calls,
        ∃ t, t ∈ db ∧ t.status = "processed" ∧
          c = { pos1 := t.store_path, pos2 := t.share_list, kwClient := client }) ∧
    (∀ p, (Uploader.begin_uploads (uploaderModuleLoad ncpu) client true db fs).submittedTo =
        some p → p.size = ncpu) := by
  rw [begin_uploads_calls_eq, begin_uploads_submittedTo_eq]
  refine ⟨?_, ?_, ?_⟩
  · intro t ht hst
    exact List.mem_map_of_mem _ (mem_runGetFolders.mpr ⟨ht, hst⟩)
  · intro c hc
    rcases List.mem_map.mp hc with ⟨t, ht, rfl⟩
    rcases mem_runGetFolders.mp ht with ⟨htdb, hst⟩
    exact ⟨t, htdb, hst, rfl⟩
  · intro p hp
    by_cases h : runGetFolders db = [] <;> simp [h, uploaderModuleLoad] at hp
    rw [← hp]

/-- Witness for C3 at a concrete store. -/
theorem C3_witness :
    ({ pos1 := "/a", pos2 := "x", kwClient := () } : StarmapCall Unit) ∈
      (Uploader.begin_uploads (uploaderModuleLoad 4) () true
        [{ store_path := "/a", share_list := "x", status := "processed" },
         { store_path := "/b", share_list := "y", status := "uploading" }] []).calls :=
  (C3_snapshot_exactly_processed 4 ()
      [{ store_path := "/a", share_list := "x", status := "processed" },
       { store_path := "/b", share_list := "y", status := "uploading" }] []).1
    { store_path := "/a", share_list := "x", status := "processed" } (by simp) rfl

/-- Claim C6: dispatch is a barrier — the value `begin_uploads` returns
already contains one completed-or-failed call for every task of the
snapshot, exactly one per snapshot row (`starmap`, unlike
`starmap_async`, only returns once every submitted call has finished). -/
theorem C6_dispatch_barrier {Client : Type} (M : UploaderModule) (client : Client)
    (db : List Task) (fs : List String) :
    (Uploader.begin_uploads M client true db fs).calls.length = (runGetFolders db).length ∧
    (∀ t ∈ runGetFolders db,
        ({ pos1 := t.store_path, pos2 := t.share_list, kwClient := client } : StarmapCall Client) ∈
          (Uploader.begin_uploads M client true db fs).calls) := by
  rw [begin_uploads_calls_eq]
  exact ⟨List.length_map _ _, fun t ht => List.mem_map_of_mem _ ht⟩

/-- Witness for C6 at a concrete store. -/
theorem C6_witness :
    ({ pos1 := "/a", pos2 := "x", kwClient := () } : StarmapCall Unit) ∈
      (Uploader.begin_uploads (uploaderModuleLoad 2) () true
        [{ store_path := "/a", share_list := "x", status := "processed" }] []).calls :=
  (C6_dispatch_barrier (uploaderModuleLoad 2) ()
      [{ store_path := "/a", share_list := "x", status := "processed" }] []).2
    { store_path := "/a", share_list := "x", status := "processed" } (by simp [runGetFolders])

/-- Claim C8: loading `uploader.py` creates exactly one pool, sized to
`cpu_count`; every firing of `begin_uploads` creates no pool of its own
and, whenever it submits, submits to that module pool. -/
theorem C8_shared_pool_singleton (ncpu : Nat) {Client : Type} (client : Client)
    (connOk : Bool) (db : List Task) (fs : List String) :
    (uploaderModuleLoad ncpu).poolsCreated = 1 ∧
    (uploaderModuleLoad ncpu).pool.size = ncpu ∧
    (Uploader.begin_uploads (uploaderModuleLoad ncpu) client connOk db fs).poolsCreated = 0 ∧
    (∀ p, (Uploader.begin_uploads (uploaderModuleLoad ncpu) client connOk db fs).submittedTo =
        some p → p = (uploaderModuleLoad ncpu).pool) := by
  refine ⟨rfl, rfl, begin_uploads_poolsCreated_eq (uploaderModuleLoad ncpu) client connOk db fs, ?_⟩
  intro p hp
  cases connOk
  · simp [Uploader.begin_uploads] at hp
  · rw [begin_uploads_submittedTo_eq] at hp
    by_cases h : runGetFolders db = [] <;> simp [h] at hp
    exact hp.symm

/-- Witness for C8 at a concrete store. -/
theorem C8_witness :
    ({ size := 4 } : ThreadPool) = (uploaderModuleLoad 4).pool :=
  (C8_shared_pool_singleton 4 () true
      [{ store_path := "/a", share_list := "x", status := "processed" }] []).2.2.2
    { size := 4 } (by simp [Uploader.begin_uploads, runGetFolders, uploaderModuleLoad])

/-- Claim C9: when the snapshot of processed tasks is empty, the cycle is a
no-op apart from the read: no call, no pool submission, store and
filesystem unchanged, only `CMD_GET_FOLDERS` executed, no warning. -/
theorem C9_empty_snapshot_noop {Client : Type} (M : UploaderModule) (client : Client)
    (db : List Task) (fs : List String) (h : runGetFolders db = []) :
    (Uploader.begin_uploads M client true db fs).calls = [] ∧
    (Uploader.begin_uploads M client true db fs).submittedTo = none ∧
    (Uploader.begin_uploads M client true db fs).db = db ∧
    (Uploader.begin_uploads M client true db fs).fs = fs ∧
    (Uploader.begin_uploads M client true db fs).cmds = [DbCmd.getFolders] ∧
    (Uploader.begin_uploads M client true db fs).warnings = 0 := by
  rw [begin_uploads_calls_eq, begin_uploads_submittedTo_eq, begin_uploads_db_eq,
    begin_uploads_fs_eq, begin_uploads_cmds_eq]
  simp [h, Uploader.begin_uploads]

/-- Witness for C9 at a concrete store holding only an uploading task. -/
theorem C9_witness :
    (Uploader.begin_uploads (uploaderModuleLoad 2) () true
        [{ store_path := "/b", share_list := "y", status := "uploading" }] []).calls = [] :=
  (C9_empty_snapshot_noop (uploaderModuleLoad 2) ()
      [{ store_path := "/b", share_list := "y", status := "uploading" }] []
      (by simp [runGetFolders])).1

/-- Claim C4: a completed `_remove(folder)` raises nothing, leaves no row
keyed by `folder` in the task store, leaves neither `folder` nor anything
below it on the filesystem, and performs the two deletions as the one
two-event cleanup step. -/
theorem C4_remove_row_and_folder (db : List Task) (fs : List String) (folder : String) :
    (Uploader._remove true true db fs folder).error = none ∧
    (∀ t ∈ (Uploader._remove true true db fs folder).db, t.store_path ≠ folder) ∧
    folder ∉ (Uploader._remove true true db fs folder).fs ∧
    (∀ p ∈ (Uploader._remove true true db fs folder).fs, ¬ (folder ++ "/").isPrefixOf p) ∧
    (Uploader._remove true true db fs folder).events =
      [RmEvent.dbRm folder, RmEvent.fsRm folder] := by
  refine ⟨rfl, ?_, ?_, ?_, rfl⟩
  · intro t ht
    have h2 : t ∈ db ∧ ¬t.store_path = folder := by
      simpa [Uploader._remove, runRmTask, List.mem_filter] using ht
    exact h2.2
  · simp [Uploader._remove, rmtree, List.mem_filter]
  · intro p hp
    simp [Uploader._remove, rmtree, List.mem_filter] at hp
    simp [hp.2.2]

/-- Witness for C4 at a concrete store and filesystem. -/
theorem C4_witness :
    ({ store_path := "/b", share_list := "y", status := "processed" } : Task).store_path
      ≠ "/a" :=
  (C4_remove_row_and_folder
      [{ store_path := "/a", share_list := "x", status := "processed" },
       { store_path := "/b", share_list := "y", status := "processed" }]
      ["/a", "/a/f.mp4", "/b"] "/a").2.1
    { store_path := "/b", share_list := "y", status := "processed" } (by decide)

/-- Claim C10: `_remove` deletes the row strictly before touching the
filesystem, and it does not catch store errors: when the store fails, the
exception propagates, the filesystem and the store are untouched, and no
mutation event happened; whenever any mutation happened at all, the first
one is the row deletion, and the folder deletion only ever appears after
it. -/
theorem C10_remove_order_and_store_error (fsOk : Bool) (db : List Task) (fs : List String)
    (folder : String) :
    ((Uploader._remove false fsOk db fs folder).error = some PyError.dbException ∧
     (Uploader._remove false fsOk db fs folder).fs = fs ∧
     (Uploader._remove false fsOk db fs folder).db = db ∧
     (Uploader._remove false fsOk db fs folder).events = []) ∧
    (∀ dbOk : Bool, ∀ e, (Uploader._remove dbOk fsOk db fs folder).events.head? = some e →
        e = RmEvent.dbRm folder) ∧
    (∀ dbOk : Bool, RmEvent.fsRm folder ∈ (Uploader._remove dbOk fsOk db fs folder).events →
        (Uploader._remove dbOk fsOk db fs folder).events =
          [RmEvent.dbRm folder, RmEvent.fsRm folder]) := by
  refine ⟨by cases fsOk <;> simp [Uploader._remove], ?_, ?_⟩
  · intro dbOk e he
    cases dbOk <;> cases fsOk <;> simp [Uploader._remove] at he <;> simp [he]
  · intro dbOk hmem
    cases dbOk <;> cases fsOk <;> simp [Uploader._remove] at hmem ⊢

/-- Witness for C10 at a concrete input where both deletions happen. -/
theorem C10_witness :
    (Uploader._remove true true [] ["/a"] "/a").events =
      [RmEvent.dbRm "/a", RmEvent.fsRm "/a"] :=
  (C10_remove_order_and_store_error true [] ["/a"] "/a").2.2 true (by decide)

/-- Claim C1 (refuted at a concrete input): for a snapshot holding the task
`store_path = "/t/rec1"`, `share_list = "a@b"`, the cycle emits the starmap
call with positional arguments `(store_path, share_list)` and keyword
argument `client`; resolving that call against the declared parameter list
`(client, folder, share_list)` of `Uploader._upload` binds `store_path`
positionally to the `client` parameter and then hits the keyword `client`
again, so the call raises `TypeError: multiple values for argument client`
instead of binding `client ↦ client`, `store_path ↦ folder`,
`share_list ↦ share_list` as claimed. -/
theorem C1_worker_call_raises_type_error :
    (Uploader.begin_uploads (uploaderModuleLoad 2) () true
        [{ store_path := "/t/rec1", share_list := "a@b", status := "processed" }] []).calls =
      [{ pos1 := "/t/rec1", pos2 := "a@b", kwClient := () }] ∧
    workerCall () { store_path := "/t/rec1", share_list := "a@b", status := "processed" } =
      Except.error "multiple values for argument client" ∧
    workerCall () { store_path := "/t/rec1", share_list := "a@b", status := "processed" } ≠
      Except.ok [("client", PyVal.client ()), ("folder", PyVal.str "/t/rec1"),
        ("share_list", PyVal.str "a@b")] := by
  have herr : workerCall () ⟨"/t/rec1", "a@b", "processed"⟩ =
      Except.error "multiple values for argument client" := rfl
  refine ⟨by decide, herr, fun h => ?_⟩
  rw [herr] at h
  exact Except.noConfusion h

end Nephos
